import Mathlib

/-!
Shallow embedding of the MyMonero hosted-wallet (light-wallet server) REST
request-handling core:

* the result carrier (expect.h) and its error-code coercion rules,
* the lws and json error categories and their generic-condition mapping,
* the HTTP dispatcher in rest_server::internal::handle_http_request,
* the request handlers get_address_info, get_address_txs, get_unspent_outs,
  get_random_outs and login, over an explicit view of the account store
  (lists of output and spend records).

Machine integers are modelled as Nat with explicit reduction modulo 2^64
where the C++ arithmetic can wrap.  Fallible C++ paths return Except or an
explicit outcome type; std::logic_error throws are a separate outcome
constructor.
-/

set_option maxRecDepth 4000

namespace Lws

/-- Modulus for C++ std::uint64_t arithmetic. -/
def u64 : Nat := 2 ^ 64

/-! ## Error categories and codes (common/expect.h, lws/error.h, json_error.cpp) -/

/-- The std::error_category instances that appear in the core: the lws
category (error.cpp / part_001), the json category (json_error.cpp), the
common category (common/error.h), the lmdb category, the std system
category (category of a default-constructed std::error_code) and the std
generic category (category of std::errc conditions). -/
inductive ErrCategory
  | lws
  | json
  | common
  | lmdb
  | system
  | generic
deriving DecidableEq, Repr

/-- A std::error_code: an integer value paired with a category. -/
structure ErrorCode where
  val : Int
  cat : ErrCategory
deriving DecidableEq, Repr

/-- A std::error_condition: same representation as ErrorCode (an integer
value paired with a category); std::errc conditions live in the generic
category. -/
structure ErrorCondition where
  val : Int
  cat : ErrCategory
deriving DecidableEq, Repr

/-- Contextual conversion of std::error_code to bool: value() != 0. -/
def ErrorCode.toBool (c : ErrorCode) : Bool := c.val != 0

/-- A default-constructed std::error_code: value 0 in the system category. -/
def ErrorCode.default : ErrorCode := ⟨0, .system⟩

/-- The lws::error enum (part_001 lines 153-177); numeric identity starts
at 1 because 0 is reserved for "no error". -/
inductive LwsError
  | kAccountExists
  | kBadAddress
  | kBadViewKey
  | kBadBlockchain
  | kBadClientTx
  | kBadDaemonResponse
  | kBlockchainReorg
  | kCreateQueueMax
  | kDaemonTimeout
  | kDuplicateRequest
  | kExceededBlockchainBuffer
  | kExceededRestRequestLimit
  | kExchangeRatesDisabled
  | kExchangeRatesFetch
  | kExchangeRatesOld
  | kNoSuchAccount
  | kSignalAbortProcess
  | kSignalAbortScan
  | kSignalUnknown
  | kSystemClockInvalidRange
  | kTxRelayFailed
deriving DecidableEq, Repr

/-- Numeric value of each lws::error enumerator (first enumerator is 1). -/
def LwsError.toInt : LwsError → Int
  | .kAccountExists => 1
  | .kBadAddress => 2
  | .kBadViewKey => 3
  | .kBadBlockchain => 4
  | .kBadClientTx => 5
  | .kBadDaemonResponse => 6
  | .kBlockchainReorg => 7
  | .kCreateQueueMax => 8
  | .kDaemonTimeout => 9
  | .kDuplicateRequest => 10
  | .kExceededBlockchainBuffer => 11
  | .kExceededRestRequestLimit => 12
  | .kExchangeRatesDisabled => 13
  | .kExchangeRatesFetch => 14
  | .kExchangeRatesOld => 15
  | .kNoSuchAccount => 16
  | .kSignalAbortProcess => 17
  | .kSignalAbortScan => 18
  | .kSignalUnknown => 19
  | .kSystemClockInvalidRange => 20
  | .kTxRelayFailed => 21

/-- lws::make_error_code: wrap an lws::error value in the lws category. -/
def make_error_code (e : LwsError) : ErrorCode := ⟨e.toInt, .lws⟩

/-- Modelled from the spec: common/error.h is not under src/; part_003
coerces a zero error code to ::common_error::kInvalidErrorCode, "a
dedicated InvalidErrorCode" per the spec.  It is the second enumerator of
the common category (nonzero, as required for has_error() to hold). -/
def kInvalidErrorCode : ErrorCode := ⟨2, .common⟩

/-- Generic (std::errc) conditions used by the categories and the
dispatcher, with their POSIX errno values: EFAULT, ETIMEDOUT, ENOBUFS,
EINTR, ERANGE, ENOLCK. -/
def errc_bad_address : ErrorCondition := ⟨14, .generic⟩

/-- std::errc::timed_out (ETIMEDOUT). -/
def errc_timed_out : ErrorCondition := ⟨110, .generic⟩

/-- std::errc::no_buffer_space (ENOBUFS). -/
def errc_no_buffer_space : ErrorCondition := ⟨105, .generic⟩

/-- std::errc::interrupted (EINTR). -/
def errc_interrupted : ErrorCondition := ⟨4, .generic⟩

/-- std::errc::result_out_of_range (ERANGE). -/
def errc_result_out_of_range : ErrorCondition := ⟨34, .generic⟩

/-- std::errc::no_lock_available (ENOLCK). -/
def errc_no_lock_available : ErrorCondition := ⟨37, .generic⟩

/-- lws::category::default_error_condition (part_001 lines 90-111):
kBadAddress and kBadViewKey map to bad_address, kDaemonTimeout to
timed_out, kExceededBlockchainBuffer to no_buffer_space, the three signal
errors to interrupted, kSystemClockInvalidRange to result_out_of_range;
every other value maps to itself in the (unmatchable) lws category. -/
def lws_default_error_condition (v : Int) : ErrorCondition :=
  if v = (LwsError.kBadAddress).toInt ∨ v = (LwsError.kBadViewKey).toInt then
    errc_bad_address
  else if v = (LwsError.kDaemonTimeout).toInt then
    errc_timed_out
  else if v = (LwsError.kExceededBlockchainBuffer).toInt then
    errc_no_buffer_space
  else if v = (LwsError.kSignalAbortProcess).toInt ∨ v = (LwsError.kSignalAbortScan).toInt
      ∨ v = (LwsError.kSignalUnknown).toInt then
    errc_interrupted
  else if v = (LwsError.kSystemClockInvalidRange).toInt then
    errc_result_out_of_range
  else
    ⟨v, .lws⟩

/-- json::category::default_error_condition (json_error.cpp):
kBufferOverflow maps to no_buffer_space, kOverflow and kUnderflow to
result_out_of_range; every other value maps to itself in the json
category.  The json enumerators also start at 1; kBufferOverflow = 1,
kOverflow = 11, kUnderflow = 13. -/
def json_default_error_condition (v : Int) : ErrorCondition :=
  if v = 1 then errc_no_buffer_space
  else if v = 11 ∨ v = 13 then errc_result_out_of_range
  else ⟨v, .json⟩

/-- std::error_category::default_error_condition for categories without an
override: the condition with the same value in the same category.  For the
generic category this identifies errc values with themselves. -/
def default_error_condition (c : ErrorCode) : ErrorCondition :=
  match c.cat with
  | .lws => lws_default_error_condition c.val
  | .json => json_default_error_condition c.val
  | cat => ⟨c.val, cat⟩

/-- Comparison std::error_code == std::error_condition: the code's
category finds the code's default condition equal to the target, or the
condition's category declares the code equivalent to the condition's value
(default: same category and value).  This is what expect::matches uses. -/
def code_matches (c : ErrorCode) (cond : ErrorCondition) : Bool :=
  default_error_condition c == cond || (c.cat == cond.cat && c.val == cond.val)

/-! ## The result carrier expect (part_003) -/

/-- The expect value-or-error carrier: the stored std::error_code plus the
optional stored value (the aligned storage is engaged exactly when the
code is clear). -/
structure Expect (T : Type) where
  code_ : ErrorCode
  storage_ : Option T
deriving DecidableEq, Repr

/-- Constructor expect(std::error_code const&): stores the code, and when
the code contextually converts to false (value 0) replaces it with
common_error::kInvalidErrorCode (part_003 lines 181-186). -/
def Expect.fromError (T : Type) (code : ErrorCode) : Expect T :=
  { code_ := if code.toBool then code else kInvalidErrorCode, storage_ := none }

/-- Constructor expect(T val): stores the value and clears the code. -/
def Expect.fromValue {T : Type} (val : T) : Expect T :=
  { code_ := ErrorCode.default, storage_ := some val }

/-- expect::has_error: contextual bool of the stored code. -/
def Expect.has_error {T : Type} (e : Expect T) : Bool := e.code_.toBool

/-- expect::has_value: negation of has_error. -/
def Expect.has_value {T : Type} (e : Expect T) : Bool := !e.has_error

/-- expect::error: the stored code, always safe to call. -/
def Expect.error {T : Type} (e : Expect T) : ErrorCode := e.code_

/-- expect::equal(std::error_code const&): has_error() and exact code
equality (category and value). -/
def Expect.equalCode {T : Type} (e : Expect T) (rhs : ErrorCode) : Bool :=
  e.has_error && e.code_ == rhs

/-- expect::matches(std::error_condition const&): has_error() and semantic
equivalence of the stored code with the condition. -/
def Expect.matches {T : Type} (e : Expect T) (rhs : ErrorCondition) : Bool :=
  e.has_error && code_matches e.code_ rhs

/-- The expect specialisation for void: only the stored code. -/
structure ExpectVoid where
  code_ : ErrorCode
deriving DecidableEq, Repr

/-- Constructor expect<void>(std::error_code const&) with the same zero
coercion as the generic template (part_003 lines 354-359). -/
def ExpectVoid.fromError (code : ErrorCode) : ExpectVoid :=
  { code_ := if code.toBool then code else kInvalidErrorCode }

/-- Default-constructed expect<void>: success. -/
def ExpectVoid.success : ExpectVoid := { code_ := ErrorCode.default }

/-- expect<void>::has_error. -/
def ExpectVoid.has_error (e : ExpectVoid) : Bool := e.code_.toBool

/-- expect<void> contextual bool: not has_error. -/
def ExpectVoid.has_value (e : ExpectVoid) : Bool := !e.has_error

/-! ## Account store data model (light_wallet_server/db/data.h via the spec)

The db record types and their orderings live in db/data.h, which is not
under src/; the record shapes and sort orders are modelled from the spec
(section 3): output ids are (block_height, amount-index) pairs ordered
lexicographically, transaction links are (height, tx_hash) pairs ordered
lexicographically, outputs sort by id, spends by (link, source).
32-byte blobs (hashes, keys, key images) are modelled as Nat, with the
numeric order standing in for the memcmp order on blobs. -/

/-- Modelled from the spec: db::output_id, structurally
(block_height, amount-index); db/data.h is not under src/. -/
structure OutputId where
  high : Nat
  low : Nat
deriving DecidableEq, Repr

/-- Modelled from the spec: the ascending order on db::output_id used for
the per-account output sort, lexicographic on (high, low). -/
def OutputId.ltb (a b : OutputId) : Bool :=
  a.high < b.high || (a.high == b.high && a.low < b.low)

/-- Modelled from the spec: db::transaction_link, a (height, tx_hash)
pair; db/data.h is not under src/. -/
structure TransactionLink where
  height : Nat
  tx_hash : Nat
deriving DecidableEq, Repr

/-- Modelled from the spec: strict order on db::transaction_link,
lexicographic on (height, tx_hash). -/
def TransactionLink.ltb (a b : TransactionLink) : Bool :=
  a.height < b.height || (a.height == b.height && a.tx_hash < b.tx_hash)

/-- Modelled from the spec: non-strict order on db::transaction_link. -/
def TransactionLink.leb (a b : TransactionLink) : Bool :=
  !TransactionLink.ltb b a

/-- The spend_meta_ sub-record of db::output projected by
MONERO_FIELD(db::output, spend_meta) in the handlers: id, amount, mixin
count, output index in its transaction, and the transaction public key. -/
structure SpendMeta where
  id : OutputId
  amount : Nat
  mixin_count : Nat
  index : Nat
  tx_public : Nat
deriving DecidableEq, Repr

/-- A received-output record (db::output) as read by the handlers: the
transaction link, the spend_meta_ sub-record, timestamp, unlock_time, the
transaction prefix hash, the ringct mask, and the unpacked coinbase and
ringct flags of the extra field. -/
structure Output where
  link : TransactionLink
  spend_meta : SpendMeta
  timestamp : Nat
  unlock_time : Nat
  tx_prefix_hash : Nat
  ringct_mask : Nat
  coinbase : Bool
  ringct : Bool
deriving DecidableEq, Repr

/-- A value-initialised db::output (all fields zero), as produced by
txes.push_back({}) in get_address_txs. -/
def Output.zero : Output :=
  { link := ⟨0, 0⟩, spend_meta := ⟨⟨0, 0⟩, 0, 0, 0, 0⟩, timestamp := 0,
    unlock_time := 0, tx_prefix_hash := 0, ringct_mask := 0,
    coinbase := false, ringct := false }

/-- A spend record (db::spend): link of the spending transaction, the id
of the source output, the key image, mixin count, timestamp and
unlock_time. -/
structure Spend where
  link : TransactionLink
  source : OutputId
  image : Nat
  mixin_count : Nat
  timestamp : Nat
  unlock_time : Nat
deriving DecidableEq, Repr

/-- The db::account_status enum; values other than kActive and kInactive
are treated as hidden by is_hidden. -/
inductive AccountStatus
  | kActive
  | kInactive
  | kHidden
deriving DecidableEq, Repr

/-- The address pair submitted by clients and stored per account. -/
structure AccountAddress where
  spend_public : Nat
  view_public : Nat
deriving DecidableEq, Repr

/-- The account fields the handlers read: id, address, scan height and
start height. -/
structure Account where
  id : Nat
  address : AccountAddress
  scan_height : Nat
  start_height : Nat
deriving DecidableEq, Repr

/-! ## Handler helpers (rest_server.cpp anonymous namespace) -/

/-- is_hidden (rest_server.cpp lines 50-62): kActive and kInactive are
visible, everything else is hidden. -/
def is_hidden (status : AccountStatus) : Bool :=
  match status with
  | .kActive => false
  | .kInactive => false
  | .kHidden => true

/-- key_check (rest_server.cpp lines 64-72): derive the public key of the
submitted view key and compare with the stored view-public half of the
address.  The elliptic-curve derivation is external
(crypto::secret_key_to_public_key), so its result is passed in: none when
the derivation fails, some v for a successful derivation. -/
def key_check (derived : Option Nat) (user : AccountAddress) : Bool :=
  match derived with
  | none => false
  | some verify => verify == user.view_public

/-- CRYPTONOTE_MAX_BLOCK_NUMBER, the upstream cryptonote constant
separating block-height unlock times from timestamp unlock times
(cryptonote_config.h, external to this repository). -/
def CRYPTONOTE_MAX_BLOCK_NUMBER : Nat := 500000000

/-- is_locked (rest_server.cpp lines 74-79): unlock times above
CRYPTONOTE_MAX_BLOCK_NUMBER are unix timestamps compared against the wall
clock (now, in whole seconds; the C++ compares
seconds(unlock_time) > system_clock duration since the epoch, which for a
positive sub-second remainder is the same as comparing against the
floored wall-clock second); other unlock times are block heights compared
against the last block id. -/
def is_locked (unlock_time : Nat) (last : Nat) (now : Nat) : Bool :=
  if unlock_time > CRYPTONOTE_MAX_BLOCK_NUMBER then
    unlock_time > now
  else
    unlock_time > last

/-- find_metadata (rest_server.cpp lines 81-96): std::lower_bound over the
meta vector ordered by output id.  On the sorted vectors maintained by the
handlers, lower_bound returns the first element whose id is not below the
probe (or end, modelled as none). -/
def find_metadata (metas : List SpendMeta) (id : OutputId) : Option SpendMeta :=
  metas.find? (fun m => !(OutputId.ltb m.id id))

/-- The source-output lookup both walkers perform per spend: find_metadata
followed by the meta == end || meta->id != spend.source check that throws
on a miss; none models the miss. -/
def lookup_source (metas : List SpendMeta) (src : OutputId) : Option SpendMeta :=
  match find_metadata metas src with
  | none => none
  | some m => if m.id = src then some m else none

/-- Insertion of a meta at its std::lower_bound position: before the first
element whose id is not below the new id. -/
def insert_meta_lb (metas : List SpendMeta) (m : SpendMeta) : List SpendMeta :=
  match metas with
  | [] => [m]
  | x :: xs =>
    if OutputId.ltb x.id m.id then
      x :: insert_meta_lb xs m
    else
      m :: x :: xs

/-- The meta-insertion step shared by both walkers (rest_server.cpp lines
285-288 and 465-468): push to the back when the new id is above the
current back, otherwise insert at the lower bound. -/
def insert_meta (metas : List SpendMeta) (m : SpendMeta) : List SpendMeta :=
  match metas.getLast? with
  | none => [m]
  | some back =>
    if OutputId.ltb back.id m.id then
      metas ++ [m]
    else
      insert_meta_lb metas m

/-- Outcome of a request handler: the generated JSON body or data behind
it (ok), an expect error code (err), or a propagated C++ exception such as
std::logic_error (thrown). -/
inductive HandlerOutcome (A : Type)
  | ok : A → HandlerOutcome A
  | err : ErrorCode → HandlerOutcome A
  | thrown : String → HandlerOutcome A
deriving DecidableEq, Repr

/-- get_account (rest_server.cpp lines 189-214): check the submitted view
key against the address, then read the account by address (the database
lookup result is passed in), then reject hidden accounts as
kNoSuchAccount.  JSON parsing of the two fields is assumed done. -/
def get_account_model (derived : Option Nat) (address : AccountAddress)
    (lookup : Except ErrorCode (AccountStatus × Account)) : Except ErrorCode Account :=
  if !(key_check derived address) then
    .error (make_error_code .kBadViewKey)
  else
    match lookup with
    | .error e => .error e
    | .ok user =>
      if is_hidden user.1 then
        .error (make_error_code .kNoSuchAccount)
      else
        .ok user.2

/-! ## get_address_info (rest_server.cpp lines 227-320) -/

/-- One iteration of the output walk in get_address_info (lines 279-293):
insert the output's spend_meta into the sorted meta vector, add the amount
to total_received, and when the output is locked also to locked_funds, in
uint64 arithmetic. -/
def info_output_step (chain now : Nat) (acc : List SpendMeta × Nat × Nat)
    (o : Output) : List SpendMeta × Nat × Nat :=
  let metas := insert_meta acc.1 o.spend_meta
  let received := (acc.2.1 + o.spend_meta.amount) % u64
  let locked :=
    if is_locked o.unlock_time chain now then (acc.2.2 + o.spend_meta.amount) % u64
    else acc.2.2
  (metas, received, locked)

/-- The full output walk of get_address_info: fold of info_output_step
from an empty meta vector and zero totals; yields (metas, received,
locked). -/
def info_outputs_phase (outputs : List Output) (chain now : Nat) :
    List SpendMeta × Nat × Nat :=
  outputs.foldl (info_output_step chain now) ([], 0, 0)

/-- One iteration of the spend walk of get_address_info (lines 296-308):
resolve the spend's source in the meta vector; a miss throws the logic
error "Serious database error, no receive for spend"; otherwise the pair
is recorded and the source amount added to total_sent. -/
def info_spend_step (metas : List SpendMeta)
    (acc : List (SpendMeta × Spend) × Nat) (s : Spend) :
    Except String (List (SpendMeta × Spend) × Nat) :=
  match lookup_source metas s.source with
  | none => .error "Serious database error, no receive for spend"
  | some m => .ok (acc.1 ++ [(m, s)], (acc.2 + m.amount) % u64)

/-- The spend walk of get_address_info (lines 295-308). -/
def info_spends_phase (metas : List SpendMeta) (spends : List Spend) :
    Except String (List (SpendMeta × Spend) × Nat) :=
  spends.foldlM (info_spend_step metas) ([], 0)

/-- The get_address_info response fields computed by the handler (the
scanned_height field repeats scanned_block_height and transaction_height
repeats blockchain_height in the emitted JSON). -/
structure AddressInfo where
  locked_funds : Nat
  total_received : Nat
  total_sent : Nat
  scanned_block_height : Nat
  start_height : Nat
  blockchain_height : Nat
  spent_outputs : List (SpendMeta × Spend)
deriving DecidableEq, Repr

/-- get_address_info: authenticate via get_account, then the two walks; a
spend without a matching receive propagates as a thrown logic error.
External sub-results are parameters: derived is the view-key derivation,
lookup the account read, chain_height the last block id, now the wall
clock in seconds.  Exchange-rate failures never fail the response and are
not modelled. -/
def get_address_info_model (derived : Option Nat) (address : AccountAddress)
    (lookup : Except ErrorCode (AccountStatus × Account))
    (outputs : List Output) (spends : List Spend)
    (chain_height now : Nat) : HandlerOutcome AddressInfo :=
  match get_account_model derived address lookup with
  | .error e => .err e
  | .ok user =>
    let ph := info_outputs_phase outputs chain_height now
    match info_spends_phase ph.1 spends with
    | .error msg => .thrown msg
    | .ok sp =>
      .ok { locked_funds := ph.2.2, total_received := ph.2.1, total_sent := sp.2,
            scanned_block_height := user.scan_height,
            start_height := user.start_height,
            blockchain_height := chain_height, spent_outputs := sp.1 }

/-! ## get_address_txs (rest_server.cpp lines 322-514) -/

/-- The per-transaction accumulator of get_address_txs: the info output
(whose spend_meta.amount accumulates the collapsed outputs of the
transaction), the attached resolved spends, and the spent total. -/
structure TxEntry where
  info : Output
  spends : List (SpendMeta × Spend)
  spent : Nat
deriving DecidableEq, Repr

/-- txes.push_back({*output}): a new transaction entry seeded from an
output record. -/
def TxEntry.ofOutput (o : Output) : TxEntry :=
  { info := o, spends := [], spent := 0 }

/-- txes.push_back({}) followed by the field assignments of the
new-spend-entry branch (lines 489-496): link height and hash, mixin
count, timestamp and unlock time copied from the spend; the first spend
pair attached. -/
def TxEntry.ofSpend (m : SpendMeta) (s : Spend) : TxEntry :=
  { info :=
      { Output.zero with
        link := ⟨s.link.height, s.link.tx_hash⟩,
        spend_meta := { Output.zero.spend_meta with mixin_count := s.mixin_count },
        timestamp := s.timestamp, unlock_time := s.unlock_time },
    spends := [(m, s)], spent := 0 }

/-- The out-of-order detection at the top of the merge loop (lines
440-448): with a non-empty transaction list, a next output or next spend
whose link is below the last entry's link is a fatal sort-order error.
The transaction list accumulator is kept in reverse order (most recent
entry first), so txes.back() is the head. -/
def txs_sort_bad (rtxes : List TxEntry) (outputs : List Output)
    (spends : List Spend) : Bool :=
  match rtxes with
  | [] => false
  | last :: _ =>
    (match outputs with
     | o :: _ => TransactionLink.ltb o.link last.info.link
     | [] => false) ||
    (match spends with
     | s :: _ => TransactionLink.ltb s.link last.info.link
     | [] => false)

/-- The output branch of the merge loop (lines 450-475): a new entry when
the pending output's tx hash differs from the last entry's, otherwise the
amount collapses into the last entry; then the last entry's (possibly
accumulated) spend_meta is inserted into the sorted meta vector and the
amount added to total_received.  Returns the updated reversed transaction
list, meta vector and received total. -/
def txs_output_step (rtxes : List TxEntry) (metas : List SpendMeta)
    (received : Nat) (o : Output) : List TxEntry × List SpendMeta × Nat :=
  let pushed :=
    match rtxes with
    | [] => (TxEntry.ofOutput o :: [], o.spend_meta.amount)
    | last :: rest =>
      if last.info.link.tx_hash == o.link.tx_hash then
        let a := o.spend_meta.amount
        ({ last with
           info :=
             { last.info with
               spend_meta :=
                 { last.info.spend_meta with
                   amount := (last.info.spend_meta.amount + a) % u64 } } } :: rest, a)
      else
        (TxEntry.ofOutput o :: last :: rest, o.spend_meta.amount)
  let metas1 :=
    match pushed.1 with
    | back :: _ => insert_meta metas back.info.spend_meta
    | [] => metas
  (pushed.1, metas1, (received + pushed.2) % u64)

/-- The spend branch of the merge loop (lines 476-506): resolve the source
in the meta vector (none models the thrown logic error); attach the pair
to the last entry when the tx hash matches, otherwise start a new entry
from the spend; then add the source amount to the entry's spent total. -/
def txs_spend_step (rtxes : List TxEntry) (metas : List SpendMeta)
    (s : Spend) : Option (List TxEntry) :=
  match lookup_source metas s.source with
  | none => none
  | some m =>
    let r1 :=
      match rtxes with
      | [] => [TxEntry.ofSpend m s]
      | last :: rest =>
        if last.info.link.tx_hash == s.link.tx_hash then
          { last with spends := last.spends ++ [(m, s)] } :: rest
        else
          TxEntry.ofSpend m s :: last :: rest
    some
      (match r1 with
       | back :: rest => { back with spent := (back.spent + m.amount) % u64 } :: rest
       | [] => [])

/-- The merge loop of get_address_txs (lines 438-507): while records
remain, check sort order, then consume the pending output when spends are
exhausted or next_output <= next_spend, else consume the pending spend
(in the source the else-branch guard next_spend < next_output is the
complement of the first guard under the total link order).  Errors are
the two thrown logic errors. -/
def txs_merge (outputs : List Output) (spends : List Spend)
    (rtxes : List TxEntry) (metas : List SpendMeta) (received : Nat) :
    Except String (List TxEntry × List SpendMeta × Nat) :=
  match outputs, spends with
  | [], [] => .ok (rtxes, metas, received)
  | o :: os, [] =>
    if txs_sort_bad rtxes (o :: os) [] then
      .error "DB has unexpected sort order"
    else
      let st := txs_output_step rtxes metas received o
      txs_merge os [] st.1 st.2.1 st.2.2
  | [], s :: ss =>
    if txs_sort_bad rtxes [] (s :: ss) then
      .error "DB has unexpected sort order"
    else
      match txs_spend_step rtxes metas s with
      | none => .error "Serious database error, no receive for spend"
      | some rtxes1 => txs_merge [] ss rtxes1 metas received
  | o :: os, s :: ss =>
    if txs_sort_bad rtxes (o :: os) (s :: ss) then
      .error "DB has unexpected sort order"
    else if TransactionLink.leb o.link s.link then
      let st := txs_output_step rtxes metas received o
      txs_merge os (s :: ss) st.1 st.2.1 st.2.2
    else
      match txs_spend_step rtxes metas s with
      | none => .error "Serious database error, no receive for spend"
      | some rtxes1 => txs_merge (o :: os) ss rtxes1 metas received
termination_by outputs.length + spends.length

/-- get_address_txs: authenticate, then merge outputs and spends into the
per-transaction list; yields total_received and the transaction entries
in emission order. -/
def get_address_txs_model (derived : Option Nat) (address : AccountAddress)
    (lookup : Except ErrorCode (AccountStatus × Account))
    (outputs : List Output) (spends : List Spend) : HandlerOutcome (Nat × List TxEntry) :=
  match get_account_model derived address lookup with
  | .error e => .err e
  | .ok _user =>
    match txs_merge outputs spends [] [] 0 with
    | .error msg => .thrown msg
    | .ok r => .ok (r.2.2, r.1.reverse)

/-! ## get_unspent_outs (rest_server.cpp lines 625-792) -/

/-- The threshold defaulting of get_unspent_outs (lines 735-736): when
use_dust is present and true, or dust_threshold is absent, the effective
threshold is 0; otherwise the submitted dust_threshold. -/
def effective_threshold (use_dust : Option Bool) (dust_threshold : Option Nat) : Nat :=
  if use_dust.getD false || dust_threshold.isNone then 0
  else dust_threshold.getD 0

/-- The mixin defaulting of get_unspent_outs (lines 738-739): an absent
mixin field means 0. -/
def effective_mixin (mixin : Option Nat) : Nat := mixin.getD 0

/-- One iteration of the output walk of get_unspent_outs (lines 760-775):
skip outputs below the threshold or below the requested mixin; survivors
add their amount to the received total (uint64) and are collected with
their full key-image set. -/
def unspent_step (th mx : Nat) (images : OutputId → List Nat)
    (acc : Nat × List (Output × List Nat)) (o : Output) :
    Nat × List (Output × List Nat) :=
  if o.spend_meta.amount < th || o.spend_meta.mixin_count < mx then acc
  else ((acc.1 + o.spend_meta.amount) % u64, acc.2 ++ [(o, images o.spend_meta.id)])

/-- The full output walk of get_unspent_outs. -/
def unspent_walk (th mx : Nat) (outputs : List Output)
    (images : OutputId → List Nat) : Nat × List (Output × List Nat) :=
  outputs.foldl (unspent_step th mx images) (0, [])

/-- The get_unspent_outs response data before JSON projection: the per-kB
fee from the oracle, the summed amount of surviving outputs, and the
surviving outputs with their key images. -/
structure UnspentOuts where
  per_kb_fee : Nat
  amount : Nat
  outputs : List (Output × List Nat)
deriving DecidableEq, Repr

/-- get_unspent_outs: check the view key, apply the dust and mixin
defaults, read the account (rejecting hidden ones), walk the outputs, and
answer kNoSuchAccount when the surviving total is below the requested
amount; finally await the fee oracle response (dispatched before the
read; passed in as fee_resp) and emit.  The key-image reads are modelled
by the total function images. -/
def get_unspent_outs_model (derived : Option Nat) (address : AccountAddress)
    (lookup : Except ErrorCode (AccountStatus × Account))
    (amount : Nat) (mixin : Option Nat) (use_dust : Option Bool)
    (dust_threshold : Option Nat) (outputs : List Output)
    (images : OutputId → List Nat) (fee_resp : Except ErrorCode Nat) :
    HandlerOutcome UnspentOuts :=
  if !(key_check derived address) then
    .err (make_error_code .kBadViewKey)
  else
    let th := effective_threshold use_dust dust_threshold
    let mx := effective_mixin mixin
    match lookup with
    | .error e => .err e
    | .ok user =>
      if is_hidden user.1 then
        .err (make_error_code .kNoSuchAccount)
      else
        let w := unspent_walk th mx outputs images
        if w.1 < amount then
          .err (make_error_code .kNoSuchAccount)
        else
          match fee_resp with
          | .error e => .err e
          | .ok fee => .ok { per_kb_fee := fee, amount := w.1, outputs := w.2 }

/-! ## get_random_outs (rest_server.cpp lines 516-623) -/

/-- How far get_random_outs proceeds before its first oracle call: failed
with an error, or the two-call oracle phase entered with the validated
count and amounts. -/
inductive RandomOutsStep
  | failed : ErrorCode → RandomOutsStep
  | oracle : Nat → List Nat → RandomOutsStep
deriving DecidableEq, Repr

/-- The pre-oracle part of get_random_outs (lines 580-591): a context that
is not logged in fails with kNoSuchAccount; then (after parsing) count
above 50 or more than 10 amounts fails with kExceededRestRequestLimit;
otherwise the handler proceeds to the oracle calls. -/
def get_random_outs_gate (logged_in : Bool) (count : Nat) (amounts : List Nat) :
    RandomOutsStep :=
  if !logged_in then
    .failed (make_error_code .kNoSuchAccount)
  else if 50 < count || 10 < amounts.length then
    .failed (make_error_code .kExceededRestRequestLimit)
  else
    .oracle count amounts

/-! ## login (rest_server.cpp lines 853-894) -/

/-- Result of the login handler: the handler outcome (the new_address
bool of the response body) and the connection context's logged_in flag
after the call. -/
structure LoginResult where
  outcome : HandlerOutcome Bool
  logged_in : Bool
deriving DecidableEq, Repr

/-- login: check the view key; when the account exists, reject hidden ones
and otherwise set logged_in and answer new_address=false; when the lookup
fails, propagate the error unless create_account is set and the error is
exactly kNoSuchAccount, in which case a creation request is queued (its
result passed in) and the answer is new_address=true with logged_in left
unchanged. -/
def login_model (derived : Option Nat) (address : AccountAddress)
    (lookup : Except ErrorCode (AccountStatus × Account)) (create : Bool)
    (logged_in : Bool) (creation : ExpectVoid) : LoginResult :=
  if !(key_check derived address) then
    ⟨.err (make_error_code .kBadViewKey), logged_in⟩
  else
    match lookup with
    | .ok user =>
      if is_hidden user.1 then
        ⟨.err (make_error_code .kNoSuchAccount), logged_in⟩
      else
        ⟨.ok false, true⟩
    | .error e =>
      if !create || e != make_error_code .kNoSuchAccount then
        ⟨.err e, logged_in⟩
      else if creation.has_error then
        ⟨.err creation.code_, logged_in⟩
      else
        ⟨.ok true, logged_in⟩

/-! ## The HTTP dispatcher (rest_server.cpp lines 935-1067) -/

/-- An entry of the endpoint table: path, whether the handler pointer is
non-null, and the per-endpoint body size limit. -/
structure Endpoint where
  name : String
  has_handler : Bool
  max_size : Nat
deriving DecidableEq, Repr

/-- The endpoint table (lines 943-952), sorted by name as the constructor
asserts. -/
def endpoints : List Endpoint :=
  [⟨"/get_address_info", true, 2 * 1024⟩,
   ⟨"/get_address_txs", true, 2 * 1024⟩,
   ⟨"/get_random_outs", true, 2 * 1024⟩,
   ⟨"/get_txt_records", false, 0⟩,
   ⟨"/get_unspent_outs", true, 2 * 1024⟩,
   ⟨"/import_request", true, 2 * 1024⟩,
   ⟨"/login", true, 2 * 1024⟩,
   ⟨"/submit_raw_tx", true, 50 * 1024⟩]

/-- The strcmp character order on unicode-scalar lists; on the ASCII
endpoint paths this is exactly the byte order std::strcmp uses. -/
def strcmp_lt_chars : List Char → List Char → Bool
  | [], [] => false
  | [], _ :: _ => true
  | _ :: _, [] => false
  | x :: xs, y :: ys => x.val < y.val || (x.val == y.val && strcmp_lt_chars xs ys)

/-- strcmp(a, b) < 0, the order of by_name_ over endpoint names. -/
def strcmp_lt (a b : String) : Bool := strcmp_lt_chars a.data b.data

/-- std::lower_bound over the endpoint table by name (strcmp order): the
first entry whose name is not below the URI. -/
def endpoint_lower_bound (es : List Endpoint) (uri : String) : Option Endpoint :=
  es.find? (fun e => !strcmp_lt e.name uri)

/-- The endpoint resolution of handle_http_request (lines 997-1005):
lower_bound plus the exact-name check; none is the 404 case. -/
def find_endpoint (uri : String) : Option Endpoint :=
  match endpoint_lower_bound endpoints uri with
  | none => none
  | some e => if e.name = uri then some e else none

/-- HTTP request methods; the dispatcher only distinguishes POST from
everything else. -/
inductive HttpMethod
  | post
  | get
  | other
deriving DecidableEq, Repr

/-- The error-to-status mapping of handle_http_request (lines 1039-1058):
exactly kNoSuchAccount (by error-code equality) gives 403; codes
semantically matching timed_out or no_lock_available give 503; everything
else gives 500. -/
def http_status_of_error (e : ErrorCode) : Nat :=
  if e == make_error_code .kNoSuchAccount then 403
  else if code_matches e errc_timed_out || code_matches e errc_no_lock_available then 503
  else 500

/-- handle_http_request (lines 993-1067): resolve the endpoint (404),
check for a null handler (501), check the body size limit (400), check
the method (405), parse the JSON body (400), then run the handler and map
its outcome: 200 on success, the error mapping otherwise.  Modelled from
the spec: an exception thrown by a handler propagates out of
handle_http_request and surfaces as HTTP 500. -/
def handle_http_request (uri : String) (method : HttpMethod) (body_size : Nat)
    (parse_ok : Bool) (run : HandlerOutcome String) : Nat :=
  match find_endpoint uri with
  | none => 404
  | some ep =>
    if !ep.has_handler then 501
    else if ep.max_size < body_size then 400
    else if method != HttpMethod.post then 405
    else if !parse_ok then 400
    else
      match run with
      | .ok _ => 200
      | .err e => http_status_of_error e
      | .thrown _ => 500

/-! ## Specification-side definitions used to compare spec and code -/

/-- The is_locked classification asserted by claim C5, written from the
claim's words (not from the source): a coinbase output is locked iff the
chain height is not greater than the output height plus the coinbase
unlock window; any other output with unlock_time above
CRYPTONOTE_MAX_BLOCK_NUMBER is locked iff that timestamp is in the
future; any other output is locked iff unlock_time as a block height
exceeds the chain height. -/
def claim_is_locked_with_coinbase (coinbase : Bool)
    (output_height coinbase_unlock_window unlock_time chain_height now : Nat) : Bool :=
  if coinbase then
    !(chain_height > output_height + coinbase_unlock_window)
  else if unlock_time > CRYPTONOTE_MAX_BLOCK_NUMBER then
    unlock_time > now
  else
    unlock_time > chain_height

/-- The amount of the stored output identified by an output id (the
reading of claim C2: the spend's source field identifies an output of the
account); 0 when no output has that id. -/
def source_amount (outputs : List Output) (src : OutputId) : Nat :=
  match outputs.find? (fun o => o.spend_meta.id == src) with
  | some o => o.spend_meta.amount
  | none => 0

/-- The amount a spend resolves to through the meta vector (0 when the
lookup misses, a case the walkers turn into a thrown error). -/
def resolve_amount (metas : List SpendMeta) (s : Spend) : Nat :=
  match lookup_source metas s.source with
  | some m => m.amount
  | none => 0

/-- The meta vector built by the output walk of get_address_info, taken on
its own (the first component of info_outputs_phase). -/
def info_metas (outputs : List Output) : List SpendMeta :=
  outputs.foldl (fun a o => insert_meta a o.spend_meta) []

/-- Sortedness of a meta vector by output id ascending, the
std::lower_bound precondition the handlers maintain. -/
def MetasSorted (metas : List SpendMeta) : Prop :=
  List.Pairwise (fun a b => OutputId.ltb b.id a.id = false) metas

/-- The outputs claim C4 says survive the get_unspent_outs filter: amount
at least the threshold and mixin count at least the requested mixin
(written from the claim's words). -/
def surviving_outputs (th mx : Nat) (outputs : List Output) : List Output :=
  outputs.filter (fun o =>
    decide (th ≤ o.spend_meta.amount) && decide (mx ≤ o.spend_meta.mixin_count))

/-! ## Helper lemmas on the output-id order -/

theorem outputId_ltb_iff (a b : OutputId) :
    OutputId.ltb a b = true ↔ a.high < b.high ∨ (a.high = b.high ∧ a.low < b.low) := by
  simp [OutputId.ltb]

theorem outputId_ltb_irrefl (a : OutputId) : OutputId.ltb a a = false := by
  simp [OutputId.ltb]

theorem outputId_ltb_asymm {a b : OutputId} (h : OutputId.ltb a b = true) :
    OutputId.ltb b a = false := by
  obtain ⟨x, y⟩ := a
  obtain ⟨u, v⟩ := b
  rw [outputId_ltb_iff] at h
  rw [← Bool.not_eq_true, outputId_ltb_iff]
  simp only at h ⊢
  omega

theorem outputId_eq_of_not_ltb {a b : OutputId} (hab : OutputId.ltb a b = false)
    (hba : OutputId.ltb b a = false) : a = b := by
  obtain ⟨x, y⟩ := a
  obtain ⟨u, v⟩ := b
  rw [← Bool.not_eq_true, outputId_ltb_iff] at hab hba
  simp only at hab hba
  simp only [OutputId.mk.injEq]
  omega

theorem outputId_le_lt_trans {a b c : OutputId} (hba : OutputId.ltb b a = false)
    (hbc : OutputId.ltb b c = true) : OutputId.ltb a c = true := by
  obtain ⟨x, y⟩ := a
  obtain ⟨u, v⟩ := b
  obtain ⟨p, q⟩ := c
  rw [← Bool.not_eq_true, outputId_ltb_iff] at hba
  rw [outputId_ltb_iff] at hbc ⊢
  simp only at hba hbc ⊢
  omega

theorem outputId_le_trans {a b c : OutputId} (hba : OutputId.ltb b a = false)
    (hcb : OutputId.ltb c b = false) : OutputId.ltb c a = false := by
  obtain ⟨x, y⟩ := a
  obtain ⟨u, v⟩ := b
  obtain ⟨p, q⟩ := c
  rw [← Bool.not_eq_true, outputId_ltb_iff] at hba hcb ⊢
  simp only at hba hcb ⊢
  omega

/-! ## Helper lemmas on meta insertion and lookup -/

theorem insert_meta_lb_perm (metas : List SpendMeta) (m : SpendMeta) :
    (insert_meta_lb metas m).Perm (m :: metas) := by
  induction metas with
  | nil => simp [insert_meta_lb]
  | cons x xs ih =>
    rw [insert_meta_lb]
    split
    · exact (List.Perm.cons x ih).trans (List.Perm.swap m x xs)
    · exact List.Perm.refl _

theorem insert_meta_perm (metas : List SpendMeta) (m : SpendMeta) :
    (insert_meta metas m).Perm (m :: metas) := by
  rw [insert_meta]
  split
  · next heq =>
    simp [List.getLast?_eq_none_iff.mp heq]
  · next back heq =>
    split
    · exact List.perm_append_singleton m metas
    · exact insert_meta_lb_perm metas m

theorem mem_insert_meta {metas : List SpendMeta} {m x : SpendMeta} :
    x ∈ insert_meta metas m ↔ x = m ∨ x ∈ metas := by
  rw [(insert_meta_perm metas m).mem_iff, List.mem_cons]

theorem insert_meta_lb_sorted {metas : List SpendMeta} (m : SpendMeta)
    (h : MetasSorted metas) : MetasSorted (insert_meta_lb metas m) := by
  induction metas with
  | nil => simp [insert_meta_lb, MetasSorted]
  | cons x xs ih =>
    rw [MetasSorted, List.pairwise_cons] at h
    rw [insert_meta_lb]
    split
    · next hlt =>
      rw [MetasSorted, List.pairwise_cons]
      refine ⟨?_, ih h.2⟩
      intro e he
      rcases List.mem_cons.mp ((insert_meta_lb_perm xs m).mem_iff.mp he) with rfl | he2
      · exact outputId_ltb_asymm hlt
      · exact h.1 e he2
    · next hge =>
      rw [Bool.not_eq_true] at hge
      rw [MetasSorted, List.pairwise_cons]
      refine ⟨?_, List.pairwise_cons.mpr h⟩
      intro e he
      rcases List.mem_cons.mp he with rfl | he2
      · exact hge
      · exact outputId_le_trans hge (h.1 e he2)

theorem insert_meta_lb_all_lt {metas : List SpendMeta} {m : SpendMeta}
    (h : ∀ e ∈ metas, OutputId.ltb e.id m.id = true) :
    insert_meta_lb metas m = metas ++ [m] := by
  induction metas with
  | nil => rfl
  | cons x xs ih =>
    rw [insert_meta_lb, if_pos (h x (List.mem_cons_self x xs))]
    rw [ih (fun e he => h e (List.mem_cons_of_mem x he))]
    rfl

theorem sorted_le_getLast :
    ∀ (metas : List SpendMeta), MetasSorted metas →
      ∀ back, metas.getLast? = some back →
        ∀ e ∈ metas, OutputId.ltb back.id e.id = false := by
  intro metas
  induction metas with
  | nil =>
    intro _ back heq
    simp at heq
  | cons x xs ih =>
    intro h back heq e he
    rw [MetasSorted, List.pairwise_cons] at h
    cases xs with
    | nil =>
      rw [List.getLast?_singleton] at heq
      rcases List.mem_cons.mp he with rfl | he2
      · rw [Option.some_inj.mp heq]
        exact outputId_ltb_irrefl _
      · exact absurd he2 (List.not_mem_nil e)
    | cons y ys =>
      rw [List.getLast?_cons_cons] at heq
      rcases List.mem_cons.mp he with rfl | he2
      · exact h.1 back (List.mem_of_mem_getLast? heq)
      · exact ih h.2 back heq e he2

theorem insert_meta_eq_lb {metas : List SpendMeta} (m : SpendMeta)
    (h : MetasSorted metas) : insert_meta metas m = insert_meta_lb metas m := by
  rw [insert_meta]
  split
  · next heq =>
    rw [List.getLast?_eq_none_iff.mp heq]
    rfl
  · next back heq =>
    split
    · next hlt =>
      rw [insert_meta_lb_all_lt]
      intro e he
      exact outputId_le_lt_trans (sorted_le_getLast metas h back heq e he) hlt
    · rfl

theorem insert_meta_sorted {metas : List SpendMeta} (m : SpendMeta)
    (h : MetasSorted metas) : MetasSorted (insert_meta metas m) := by
  rw [insert_meta_eq_lb m h]
  exact insert_meta_lb_sorted m h

theorem lookup_source_some {metas : List SpendMeta} {src : OutputId} {m : SpendMeta}
    (h : lookup_source metas src = some m) : m ∈ metas ∧ m.id = src := by
  rw [lookup_source] at h
  split at h
  · exact Option.noConfusion h
  · next m0 hf =>
    split at h
    · next hid =>
      obtain rfl := Option.some_inj.mp h
      rw [find_metadata] at hf
      exact ⟨List.mem_of_find?_eq_some hf, hid⟩
    · exact Option.noConfusion h

theorem lookup_source_found :
    ∀ (metas : List SpendMeta), MetasSorted metas →
      ∀ (m : SpendMeta) (src : OutputId), m ∈ metas → m.id = src →
        ∃ r, lookup_source metas src = some r ∧ r ∈ metas ∧ r.id = src := by
  intro metas
  induction metas with
  | nil =>
    intro _ m src hm _
    exact absurd hm (List.not_mem_nil m)
  | cons x xs ih =>
    intro h m src hm hid
    rw [MetasSorted, List.pairwise_cons] at h
    by_cases hx : OutputId.ltb x.id src = true
    · have hmx : m ∈ xs := by
        rcases List.mem_cons.mp hm with rfl | hmem
        · rw [hid, outputId_ltb_irrefl] at hx
          exact absurd hx Bool.false_ne_true
        · exact hmem
      obtain ⟨r, hr, hrmem, hrid⟩ := ih h.2 m src hmx hid
      refine ⟨r, ?_, List.mem_cons_of_mem x hrmem, hrid⟩
      rw [lookup_source, find_metadata] at hr ⊢
      rw [List.find?_cons_of_neg]
      · exact hr
      · simp [hx]
    · rw [Bool.not_eq_true] at hx
      have hxid : x.id = src := by
        refine outputId_eq_of_not_ltb hx ?_
        rcases List.mem_cons.mp hm with rfl | hmem
        · rw [hid]
          exact outputId_ltb_irrefl _
        · rw [← hid]
          exact h.1 m hmem
      refine ⟨x, ?_, List.mem_cons_self x xs, hxid⟩
      rw [lookup_source, find_metadata, List.find?_cons_of_pos]
      · simp [hxid]
      · simp [hx]

/-! ## Helper lemmas on the handler walks -/

theorem info_outputs_phase_foldl (chain now : Nat) :
    ∀ (outputs : List Output) (ms : List SpendMeta) (r l : Nat),
      outputs.foldl (info_output_step chain now) (ms, r, l) =
        (outputs.foldl (fun a o => insert_meta a o.spend_meta) ms,
         outputs.foldl (fun a o => (a + o.spend_meta.amount) % u64) r,
         outputs.foldl (fun a o =>
           if is_locked o.unlock_time chain now then (a + o.spend_meta.amount) % u64
           else a) l) := by
  intro outputs
  induction outputs with
  | nil =>
    intro ms r l
    rfl
  | cons o os ih =>
    intro ms r l
    rw [List.foldl_cons, List.foldl_cons, List.foldl_cons, List.foldl_cons]
    exact ih _ _ _

theorem foldl_add_mod (f : Output → Nat) :
    ∀ (l : List Output) (r : Nat),
      l.foldl (fun a o => (a + f o) % u64) (r % u64) = (r + (l.map f).sum) % u64 := by
  intro l
  induction l with
  | nil =>
    intro r
    simp
  | cons o os ih =>
    intro r
    rw [List.foldl_cons, Nat.mod_add_mod, ih (r + f o), List.map_cons, List.sum_cons,
      ← Nat.add_assoc]

theorem foldl_locked_mod (chain now : Nat) :
    ∀ (l : List Output) (r : Nat),
      l.foldl (fun a o =>
          if is_locked o.unlock_time chain now then (a + o.spend_meta.amount) % u64
          else a) (r % u64) =
        (r + ((l.filter (fun o => is_locked o.unlock_time chain now)).map
            (fun o => o.spend_meta.amount)).sum) % u64 := by
  intro l
  induction l with
  | nil =>
    intro r
    simp
  | cons o os ih =>
    intro r
    rw [List.foldl_cons]
    by_cases hl : is_locked o.unlock_time chain now = true
    · rw [if_pos hl, Nat.mod_add_mod, ih (r + o.spend_meta.amount),
        List.filter_cons, if_pos hl, List.map_cons, List.sum_cons, ← Nat.add_assoc]
    · rw [if_neg hl, ih r, List.filter_cons, if_neg hl]

theorem metas_fold_sorted :
    ∀ (outputs : List Output) (ms : List SpendMeta), MetasSorted ms →
      MetasSorted (outputs.foldl (fun a o => insert_meta a o.spend_meta) ms) := by
  intro outputs
  induction outputs with
  | nil =>
    intro ms h
    exact h
  | cons o os ih =>
    intro ms h
    rw [List.foldl_cons]
    exact ih _ (insert_meta_sorted _ h)

theorem metas_fold_perm :
    ∀ (outputs : List Output) (ms : List SpendMeta),
      (outputs.foldl (fun a o => insert_meta a o.spend_meta) ms).Perm
        (ms ++ outputs.map (fun o => o.spend_meta)) := by
  intro outputs
  induction outputs with
  | nil =>
    intro ms
    simp
  | cons o os ih =>
    intro ms
    rw [List.foldl_cons, List.map_cons]
    refine (ih (insert_meta ms o.spend_meta)).trans ?_
    refine (List.Perm.append_right _ (insert_meta_perm ms o.spend_meta)).trans ?_
    rw [List.cons_append]
    exact List.perm_middle.symm

theorem info_metas_sorted (outputs : List Output) : MetasSorted (info_metas outputs) :=
  metas_fold_sorted outputs [] List.Pairwise.nil

theorem info_metas_perm (outputs : List Output) :
    (info_metas outputs).Perm (outputs.map (fun o => o.spend_meta)) := by
  have := metas_fold_perm outputs []
  rw [List.nil_append] at this
  exact this

theorem foldlM_spends_ok (metas : List SpendMeta) :
    ∀ (spends : List Spend) (acc : List (SpendMeta × Spend)) (r : Nat),
      (∀ s ∈ spends, (lookup_source metas s.source).isSome = true) →
      ∃ pairs, spends.foldlM (info_spend_step metas) (acc, r % u64) =
        Except.ok (pairs, (r + (spends.map (resolve_amount metas)).sum) % u64) := by
  intro spends
  induction spends with
  | nil =>
    intro acc r _
    exact ⟨acc, rfl⟩
  | cons s ss ih =>
    intro acc r h
    obtain ⟨m, hm⟩ := Option.isSome_iff_exists.mp (h s (List.mem_cons_self s ss))
    have hres : resolve_amount metas s = m.amount := by
      rw [resolve_amount, hm]
    obtain ⟨pairs, hp⟩ :=
      ih (acc ++ [(m, s)]) (r + m.amount) (fun t ht => h t (List.mem_cons_of_mem s ht))
    refine ⟨pairs, ?_⟩
    rw [List.foldlM_cons, info_spend_step, hm]
    show List.foldlM (info_spend_step metas) (acc ++ [(m, s)], (r % u64 + m.amount) % u64) ss =
      Except.ok (pairs, (r + (List.map (resolve_amount metas) (s :: ss)).sum) % u64)
    rw [Nat.mod_add_mod, List.map_cons, List.sum_cons, hres, ← Nat.add_assoc]
    exact hp

theorem foldlM_spends_error (metas : List SpendMeta) :
    ∀ (spends : List Spend) (acc : List (SpendMeta × Spend) × Nat),
      (∃ s ∈ spends, lookup_source metas s.source = none) →
      spends.foldlM (info_spend_step metas) acc =
        Except.error "Serious database error, no receive for spend" := by
  intro spends
  induction spends with
  | nil =>
    intro acc h
    obtain ⟨s, hs, _⟩ := h
    exact absurd hs (List.not_mem_nil s)
  | cons s ss ih =>
    intro acc h
    cases hstep : lookup_source metas s.source with
    | none =>
      rw [List.foldlM_cons, info_spend_step, hstep]
      rfl
    | some m =>
      obtain ⟨s0, hs0mem, hs0⟩ := h
      have hmem : s0 ∈ ss := by
        rcases List.mem_cons.mp hs0mem with rfl | hmem
        · rw [hstep] at hs0
          exact Option.noConfusion hs0
        · exact hmem
      rw [List.foldlM_cons, info_spend_step, hstep]
      show List.foldlM (info_spend_step metas) (acc.1 ++ [(m, s)], (acc.2 + m.amount) % u64) ss =
        Except.error "Serious database error, no receive for spend"
      exact ih _ ⟨s0, hmem, hs0⟩

theorem info_spends_phase_ok_inv {metas : List SpendMeta} {spends : List Spend}
    {sp : List (SpendMeta × Spend) × Nat} (h : info_spends_phase metas spends = .ok sp) :
    (∀ s ∈ spends, (lookup_source metas s.source).isSome = true) ∧
    sp.2 = (spends.map (resolve_amount metas)).sum % u64 := by
  have hall : ∀ s ∈ spends, (lookup_source metas s.source).isSome = true := by
    intro s hs
    cases hlc : lookup_source metas s.source with
    | some m => rfl
    | none =>
      rw [info_spends_phase, foldlM_spends_error metas spends ([], 0) ⟨s, hs, hlc⟩] at h
      exact Except.noConfusion h
  refine ⟨hall, ?_⟩
  obtain ⟨pairs, hp⟩ := foldlM_spends_ok metas spends [] 0 hall
  rw [Nat.zero_mod, Nat.zero_add] at hp
  rw [info_spends_phase, hp] at h
  rw [← Except.ok.inj h]

theorem resolve_amount_eq_source (outputs : List Output)
    (hnd : (outputs.map (fun o => o.spend_meta.id)).Nodup) (s : Spend)
    (hsome : (lookup_source (info_metas outputs) s.source).isSome = true) :
    resolve_amount (info_metas outputs) s = source_amount outputs s.source := by
  obtain ⟨m, hm⟩ := Option.isSome_iff_exists.mp hsome
  obtain ⟨hmem, hid⟩ := lookup_source_some hm
  have hmmap : m ∈ outputs.map (fun o => o.spend_meta) :=
    (info_metas_perm outputs).subset hmem
  obtain ⟨o0, ho0mem, ho0⟩ := List.mem_map.mp hmmap
  have hfind : (outputs.find? (fun o => o.spend_meta.id == s.source)).isSome = true := by
    rw [List.find?_isSome]
    refine ⟨o0, ho0mem, ?_⟩
    rw [ho0, hid]
    simp
  obtain ⟨o1, ho1⟩ := Option.isSome_iff_exists.mp hfind
  have ho1mem := List.mem_of_find?_eq_some ho1
  have ho1id : o1.spend_meta.id = s.source := by
    have := List.find?_some ho1
    simpa using this
  have ho0id : o0.spend_meta.id = s.source := by
    rw [ho0]
    exact hid
  have heq : o0 = o1 := by
    refine List.inj_on_of_nodup_map hnd ho0mem ho1mem ?_
    rw [ho0id, ho1id]
  rw [resolve_amount, hm, source_amount, ho1]
  show m.amount = o1.spend_meta.amount
  rw [← heq, ho0]

theorem unspent_walk_foldl (th mx : Nat) (images : OutputId → List Nat) :
    ∀ (outputs : List Output) (r : Nat) (acc : List (Output × List Nat)),
      outputs.foldl (unspent_step th mx images) (r % u64, acc) =
        ((r + ((surviving_outputs th mx outputs).map
            (fun o => o.spend_meta.amount)).sum) % u64,
         acc ++ (surviving_outputs th mx outputs).map
            (fun o => (o, images o.spend_meta.id))) := by
  intro outputs
  induction outputs with
  | nil =>
    intro r acc
    simp [surviving_outputs]
  | cons o os ih =>
    intro r acc
    rw [List.foldl_cons, unspent_step, surviving_outputs, List.filter_cons]
    by_cases hskip : (o.spend_meta.amount < th || o.spend_meta.mixin_count < mx) = true
    · rw [if_pos hskip]
      have hc : (decide (th ≤ o.spend_meta.amount) &&
          decide (mx ≤ o.spend_meta.mixin_count)) = false := by
        rw [Bool.or_eq_true, decide_eq_true_eq, decide_eq_true_eq] at hskip
        rw [Bool.and_eq_false_iff]
        rcases hskip with hlt | hlt
        · exact Or.inl (by simpa using Nat.not_le.mpr hlt)
        · exact Or.inr (by simpa using Nat.not_le.mpr hlt)
      rw [if_neg (by rw [hc]; exact Bool.false_ne_true)]
      exact ih r acc
  -- survivor branch
    · rw [if_neg hskip]
      have hc : (decide (th ≤ o.spend_meta.amount) &&
          decide (mx ≤ o.spend_meta.mixin_count)) = true := by
        rw [Bool.or_eq_true, decide_eq_true_eq, decide_eq_true_eq] at hskip
        push_neg at hskip
        simp only [Bool.and_eq_true, decide_eq_true_eq]
        omega
      rw [if_pos (by rw [hc])]
      rw [Nat.mod_add_mod]
      rw [ih (r + o.spend_meta.amount) (acc ++ [(o, images o.spend_meta.id)])]
      rw [List.map_cons, List.sum_cons, List.map_cons, ← Nat.add_assoc, List.append_assoc]
      rfl

theorem get_address_info_model_ok_inv {derived : Option Nat}
    {address : AccountAddress} {lookup : Except ErrorCode (AccountStatus × Account)}
    {outputs : List Output} {spends : List Spend} {chain now : Nat}
    {info : AddressInfo}
    (h : get_address_info_model derived address lookup outputs spends chain now = .ok info) :
    info.total_received = (outputs.map (fun o => o.spend_meta.amount)).sum % u64 ∧
    info.locked_funds = ((outputs.filter (fun o => is_locked o.unlock_time chain now)).map
      (fun o => o.spend_meta.amount)).sum % u64 ∧
    (∀ s ∈ spends, (lookup_source (info_metas outputs) s.source).isSome = true) ∧
    info.total_sent = (spends.map (resolve_amount (info_metas outputs))).sum % u64 := by
  rw [get_address_info_model] at h
  cases hacc : get_account_model derived address lookup with
  | error e =>
    rw [hacc] at h
    exact HandlerOutcome.noConfusion h
  | ok user =>
    rw [hacc] at h
    have hph : info_outputs_phase outputs chain now =
        (info_metas outputs,
         (outputs.map (fun o => o.spend_meta.amount)).sum % u64,
         ((outputs.filter (fun o => is_locked o.unlock_time chain now)).map
            (fun o => o.spend_meta.amount)).sum % u64) := by
      rw [info_outputs_phase, info_outputs_phase_foldl]
      have h2 := foldl_add_mod (fun o => o.spend_meta.amount) outputs 0
      have h3 := foldl_locked_mod chain now outputs 0
      rw [Nat.zero_mod] at h2 h3
      rw [h2, h3, Nat.zero_add, Nat.zero_add]
      rfl
    rw [hph] at h
    dsimp only at h
    cases hsp : info_spends_phase (info_metas outputs) spends with
    | error msg =>
      rw [hsp] at h
      exact HandlerOutcome.noConfusion h
    | ok sp =>
      rw [hsp] at h
      obtain ⟨hall, hsent⟩ := info_spends_phase_ok_inv hsp
      obtain rfl := HandlerOutcome.ok.inj h
      exact ⟨rfl, rfl, hall, hsent⟩

theorem get_unspent_outs_model_eval (derived : Option Nat) (address : AccountAddress)
    (st : AccountStatus) (acct : Account) (amount : Nat) (mixin : Option Nat)
    (use_dust : Option Bool) (dust_threshold : Option Nat) (outputs : List Output)
    (images : OutputId → List Nat) (f : Nat)
    (hkey : key_check derived address = true) (hvis : is_hidden st = false) :
    get_unspent_outs_model derived address (.ok (st, acct)) amount mixin use_dust
        dust_threshold outputs images (.ok f) =
      (if ((surviving_outputs (effective_threshold use_dust dust_threshold)
            (effective_mixin mixin) outputs).map (fun o => o.spend_meta.amount)).sum % u64
          < amount then
        .err (make_error_code .kNoSuchAccount)
      else
        .ok { per_kb_fee := f,
              amount := ((surviving_outputs (effective_threshold use_dust dust_threshold)
                (effective_mixin mixin) outputs).map (fun o => o.spend_meta.amount)).sum % u64,
              outputs := (surviving_outputs (effective_threshold use_dust dust_threshold)
                (effective_mixin mixin) outputs).map
                  (fun o => (o, images o.spend_meta.id)) }) := by
  have hwalk : unspent_walk (effective_threshold use_dust dust_threshold)
      (effective_mixin mixin) outputs images =
      (((surviving_outputs (effective_threshold use_dust dust_threshold)
          (effective_mixin mixin) outputs).map (fun o => o.spend_meta.amount)).sum % u64,
       (surviving_outputs (effective_threshold use_dust dust_threshold)
          (effective_mixin mixin) outputs).map (fun o => (o, images o.spend_meta.id))) := by
    have := unspent_walk_foldl (effective_threshold use_dust dust_threshold)
      (effective_mixin mixin) images outputs 0 []
    rw [Nat.zero_mod, Nat.zero_add, List.nil_append] at this
    rw [unspent_walk]
    exact this
  rw [get_unspent_outs_model, hkey]
  simp only [Bool.not_true, Bool.false_eq_true, if_false]
  rw [hvis]
  simp only [Bool.false_eq_true, if_false]
  rw [hwalk]

/-! ## Claim theorems -/

/-- Claim C9: constructing an expect (of any value type) or an
expect-of-void from a std::error_code whose numeric value is 0 — the
default-constructed code included — stores the dedicated InvalidErrorCode,
so the result reports has_error and never appears successful. -/
theorem claim_C9 (T : Type) (c : ErrCategory) :
    (Expect.fromError T ⟨0, c⟩).has_error = true ∧
    (Expect.fromError T ⟨0, c⟩).error = kInvalidErrorCode ∧
    (Expect.fromError T ⟨0, c⟩).has_value = false ∧
    (ExpectVoid.fromError ⟨0, c⟩).has_error = true ∧
    (ExpectVoid.fromError ⟨0, c⟩).code_ = kInvalidErrorCode ∧
    (ExpectVoid.fromError ⟨0, c⟩).has_value = false ∧
    (Expect.fromError T ErrorCode.default).error = kInvalidErrorCode := by
  refine ⟨?_, ?_, ?_, ?_, ?_, ?_, ?_⟩ <;>
    simp [Expect.fromError, ExpectVoid.fromError, Expect.has_error, Expect.has_value,
      Expect.error, ExpectVoid.has_error, ExpectVoid.has_value, ErrorCode.toBool,
      ErrorCode.default, kInvalidErrorCode]

/-- Claim C7: with a logged-in context, get_random_outs proceeds to the
oracle calls whenever count is at most 50 and there are at most 10
amounts, and fails with kExceededRestRequestLimit before contacting the
oracle whenever count is 51 or more, or there are 11 or more amounts. -/
theorem claim_C7 (logged_in : Bool) (count : Nat) (amounts : List Nat)
    (hlog : logged_in = true) :
    (count ≤ 50 → amounts.length ≤ 10 →
      get_random_outs_gate logged_in count amounts = .oracle count amounts) ∧
    (51 ≤ count ∨ 11 ≤ amounts.length →
      get_random_outs_gate logged_in count amounts =
        .failed (make_error_code .kExceededRestRequestLimit)) := by
  subst hlog
  constructor
  · intro hc ha
    have hb : (50 < count || 10 < amounts.length) = false := by
      simp only [Bool.or_eq_false_iff, decide_eq_false_iff_not, Nat.not_lt]
      exact ⟨hc, ha⟩
    simp [get_random_outs_gate, hb]
  · intro h
    have hb : (50 < count || 10 < amounts.length) = true := by
      simp only [Bool.or_eq_true, decide_eq_true_eq]
      omega
    simp [get_random_outs_gate, hb]

/-- Witness for claim C7 at the spec's boundary inputs: count 50 with 10
amounts reaches the oracle phase; count 51, and 11 amounts, are refused. -/
theorem claim_C7_witness :
    get_random_outs_gate true 50 [1, 2, 3, 4, 5, 6, 7, 8, 9, 10] =
      .oracle 50 [1, 2, 3, 4, 5, 6, 7, 8, 9, 10] ∧
    get_random_outs_gate true 51 [1] =
      .failed (make_error_code .kExceededRestRequestLimit) ∧
    get_random_outs_gate true 1 [1, 2, 3, 4, 5, 6, 7, 8, 9, 10, 11] =
      .failed (make_error_code .kExceededRestRequestLimit) :=
  ⟨(claim_C7 true 50 [1, 2, 3, 4, 5, 6, 7, 8, 9, 10] rfl).1 (by decide) (by decide),
   (claim_C7 true 51 [1] rfl).2 (Or.inl (by decide)),
   (claim_C7 true 1 [1, 2, 3, 4, 5, 6, 7, 8, 9, 10, 11] rfl).2 (Or.inr (by decide))⟩

/-- Counterexample to claim C1: a get_address_info request whose submitted
view key fails the authentication predicate does return kBadViewKey, but
the dispatcher maps kBadViewKey to HTTP 500, not to the 403 it reserves
for kNoSuchAccount — the two are distinguishable at the wire level. -/
theorem claim_C1_counterexample :
    get_address_info_model (some 8) ⟨5, 7⟩ (.ok (.kActive, ⟨1, ⟨5, 7⟩, 0, 0⟩)) [] [] 0 0 =
      .err (make_error_code .kBadViewKey) ∧
    http_status_of_error (make_error_code .kBadViewKey) = 500 ∧
    ¬http_status_of_error (make_error_code .kBadViewKey) =
      http_status_of_error (make_error_code .kNoSuchAccount) := by
  refine ⟨by decide, by decide, by decide⟩

/-- Claim C1 as amended: every address-bearing handler returns kBadViewKey
when the submitted view key fails the authentication predicate, and the
HTTP layer maps that error to status 500 — only kNoSuchAccount maps to
403 — so failed authentication is distinguishable from a missing account
at the wire level. -/
theorem claim_C1_amended (derived : Option Nat) (address : AccountAddress)
    (lookup : Except ErrorCode (AccountStatus × Account)) (outputs : List Output)
    (spends : List Spend) (chain now amount : Nat) (mixin : Option Nat)
    (use_dust : Option Bool) (dust_threshold : Option Nat)
    (images : OutputId → List Nat) (fee : Except ErrorCode Nat)
    (create logged0 : Bool) (creation : ExpectVoid)
    (hkey : key_check derived address = false) :
    get_address_info_model derived address lookup outputs spends chain now =
      .err (make_error_code .kBadViewKey) ∧
    get_address_txs_model derived address lookup outputs spends =
      .err (make_error_code .kBadViewKey) ∧
    get_unspent_outs_model derived address lookup amount mixin use_dust
        dust_threshold outputs images fee =
      .err (make_error_code .kBadViewKey) ∧
    (login_model derived address lookup create logged0 creation).outcome =
      .err (make_error_code .kBadViewKey) ∧
    http_status_of_error (make_error_code .kBadViewKey) = 500 ∧
    http_status_of_error (make_error_code .kNoSuchAccount) = 403 := by
  refine ⟨?_, ?_, ?_, ?_, by decide, by decide⟩ <;>
    simp [get_address_info_model, get_address_txs_model, get_unspent_outs_model,
      login_model, get_account_model, hkey]

/-- Witness for claim C1 at a concrete failed derivation. -/
theorem claim_C1_witness :
    get_address_info_model none ⟨0, 0⟩ (.error (make_error_code .kNoSuchAccount)) [] [] 0 0 =
      .err (make_error_code .kBadViewKey) ∧
    get_address_txs_model none ⟨0, 0⟩ (.error (make_error_code .kNoSuchAccount)) [] [] =
      .err (make_error_code .kBadViewKey) ∧
    get_unspent_outs_model none ⟨0, 0⟩ (.error (make_error_code .kNoSuchAccount)) 0 none
        none none [] (fun _ => []) (.ok 0) =
      .err (make_error_code .kBadViewKey) ∧
    (login_model none ⟨0, 0⟩ (.error (make_error_code .kNoSuchAccount)) false false
        ExpectVoid.success).outcome =
      .err (make_error_code .kBadViewKey) ∧
    http_status_of_error (make_error_code .kBadViewKey) = 500 ∧
    http_status_of_error (make_error_code .kNoSuchAccount) = 403 :=
  claim_C1_amended none ⟨0, 0⟩ (.error (make_error_code .kNoSuchAccount)) [] [] 0 0 0 none
    none none (fun _ => []) (.ok 0) false false ExpectVoid.success rfl

/-- Counterexample to claim C6: a login request with create_account true
for an address that already has a promoted (active) account does set the
context's logged_in flag — the flag is not left false regardless of
whether the account exists. -/
theorem claim_C6_counterexample :
    (login_model (some 7) ⟨5, 7⟩ (.ok (.kActive, ⟨1, ⟨5, 7⟩, 0, 0⟩)) true false
        ExpectVoid.success).logged_in = true ∧
    (login_model (some 7) ⟨5, 7⟩ (.ok (.kActive, ⟨1, ⟨5, 7⟩, 0, 0⟩)) true false
        ExpectVoid.success).outcome = .ok false := by
  refine ⟨by decide, by decide⟩

/-- Claim C6 as amended: a login request with create_account true sets
logged_in exactly when the address already has a visible promoted account
(the handler then confirms it with new_address false); on the
creation-request path — the lookup fails with kNoSuchAccount — and on
every failure path, the flag is left unchanged. -/
theorem claim_C6_amended (derived : Option Nat) (address : AccountAddress)
    (lookup : Except ErrorCode (AccountStatus × Account)) (logged0 : Bool)
    (creation : ExpectVoid) :
    (lookup = .error (make_error_code .kNoSuchAccount) →
      (login_model derived address lookup true logged0 creation).logged_in = logged0) ∧
    (∀ st acct, lookup = .ok (st, acct) → is_hidden st = false →
      key_check derived address = true →
      (login_model derived address lookup true logged0 creation).logged_in = true) ∧
    (key_check derived address = false →
      (login_model derived address lookup true logged0 creation).logged_in = logged0) ∧
    (∀ st acct, lookup = .ok (st, acct) → is_hidden st = true →
      (login_model derived address lookup true logged0 creation).logged_in = logged0) := by
  refine ⟨?_, ?_, ?_, ?_⟩
  · intro hl
    subst hl
    by_cases hkey : key_check derived address = true
    · by_cases hcr : creation.has_error = true
      · simp [login_model, hkey, hcr]
      · rw [Bool.not_eq_true] at hcr
        simp [login_model, hkey, hcr]
    · rw [Bool.not_eq_true] at hkey
      simp [login_model, hkey]
  · intro st acct hl hh hkey
    subst hl
    simp [login_model, hkey, hh]
  · intro hkey
    simp [login_model, hkey]
  · intro st acct hl hh
    subst hl
    by_cases hkey : key_check derived address = true
    · simp [login_model, hkey, hh]
    · rw [Bool.not_eq_true] at hkey
      simp [login_model, hkey]

/-- Witness for claim C6 at concrete inputs: the creation-request path
leaves the flag false, the existing-account path raises it. -/
theorem claim_C6_witness :
    (login_model (some 7) ⟨5, 7⟩ (.error (make_error_code .kNoSuchAccount)) true false
        ExpectVoid.success).logged_in = false ∧
    (login_model (some 7) ⟨5, 7⟩ (.ok (.kActive, ⟨1, ⟨5, 7⟩, 0, 0⟩)) true false
        ExpectVoid.success).logged_in = true :=
  ⟨(claim_C6_amended (some 7) ⟨5, 7⟩ (.error (make_error_code .kNoSuchAccount)) false
      ExpectVoid.success).1 rfl,
   (claim_C6_amended (some 7) ⟨5, 7⟩ (.ok (.kActive, ⟨1, ⟨5, 7⟩, 0, 0⟩)) false
      ExpectVoid.success).2.1 .kActive ⟨1, ⟨5, 7⟩, 0, 0⟩ rfl (by decide) (by decide)⟩

/-- Counterexample to claim C8: a non-POST request to the implemented
endpoint /login whose body also exceeds the 2 KiB limit is answered 400,
not the 405 the claim asserts for every wrong-method request — the body
size check precedes the method check. -/
theorem claim_C8_counterexample :
    find_endpoint "/login" = some ⟨"/login", true, 2048⟩ ∧
    handle_http_request "/login" .get 2049 true (.ok "") = 400 ∧
    ¬handle_http_request "/login" .get 2049 true (.ok "") = 405 := by
  refine ⟨by decide, by decide, by decide⟩

/-- Claim C8 as amended: unknown paths give 404; known endpoints with a
null handler give 501; an implemented endpoint with an oversized body
gives 400; a wrong method gives 405 only once the body is within the
endpoint's size limit (the size check precedes the method check); and a
JSON parse failure on a well-formed POST gives 400. -/
theorem claim_C8_amended (uri : String) (method : HttpMethod) (bsize : Nat)
    (parse_ok : Bool) (run : HandlerOutcome String) :
    (find_endpoint uri = none →
      handle_http_request uri method bsize parse_ok run = 404) ∧
    (∀ e, find_endpoint uri = some e → e.has_handler = false →
      handle_http_request uri method bsize parse_ok run = 501) ∧
    (∀ e, find_endpoint uri = some e → e.has_handler = true → e.max_size < bsize →
      handle_http_request uri method bsize parse_ok run = 400) ∧
    (∀ e, find_endpoint uri = some e → e.has_handler = true → bsize ≤ e.max_size →
      ¬method = .post →
      handle_http_request uri method bsize parse_ok run = 405) ∧
    (∀ e, find_endpoint uri = some e → e.has_handler = true → bsize ≤ e.max_size →
      method = .post → parse_ok = false →
      handle_http_request uri method bsize parse_ok run = 400) := by
  refine ⟨?_, ?_, ?_, ?_, ?_⟩
  · intro h
    simp [handle_http_request, h]
  · intro e he hh
    simp [handle_http_request, he, hh]
  · intro e he hh hsz
    simp [handle_http_request, he, hh, hsz]
  · intro e he hh hsz hm
    simp [handle_http_request, he, hh, Nat.not_lt.mpr hsz, hm]
  · intro e he hh hsz hm hp
    subst hm
    simp [handle_http_request, he, hh, Nat.not_lt.mpr hsz, hp]

/-- Witness for claim C8 at concrete requests covering all five status
branches. -/
theorem claim_C8_witness :
    handle_http_request "/nope" .post 0 true (.ok "") = 404 ∧
    handle_http_request "/get_txt_records" .post 0 true (.ok "") = 501 ∧
    handle_http_request "/submit_raw_tx" .post 51201 true (.ok "") = 400 ∧
    handle_http_request "/login" .get 10 true (.ok "") = 405 ∧
    handle_http_request "/login" .post 10 false (.ok "") = 400 :=
  ⟨(claim_C8_amended "/nope" .post 0 true (.ok "")).1 (by decide),
   (claim_C8_amended "/get_txt_records" .post 0 true (.ok "")).2.1
     ⟨"/get_txt_records", false, 0⟩ (by decide) (by decide),
   (claim_C8_amended "/submit_raw_tx" .post 51201 true (.ok "")).2.2.1
     ⟨"/submit_raw_tx", true, 51200⟩ (by decide) (by decide) (by decide),
   (claim_C8_amended "/login" .get 10 true (.ok "")).2.2.2.1
     ⟨"/login", true, 2048⟩ (by decide) (by decide) (by decide) (by decide),
   (claim_C8_amended "/login" .post 10 false (.ok "")).2.2.2.2
     ⟨"/login", true, 2048⟩ (by decide) (by decide) (by decide) (by decide) (by decide)⟩

/-- Counterexample to claim C5: the is_locked predicate used by
get_address_info has no coinbase branch.  A coinbase output at height 100
with unlock_time 0 and chain height 101 is locked under the claim's
classification (101 is not greater than 100 + 60), yet is_locked calls it
unlocked and get_address_info reports zero locked funds for it. -/
theorem claim_C5_counterexample :
    claim_is_locked_with_coinbase true 100 60 0 101 0 = true ∧
    is_locked 0 101 0 = false ∧
    get_address_info_model (some 7) ⟨5, 7⟩ (.ok (.kActive, ⟨1, ⟨5, 7⟩, 0, 0⟩))
        [{ link := ⟨100, 1⟩, spend_meta := ⟨⟨100, 0⟩, 5, 0, 0, 0⟩, timestamp := 0,
           unlock_time := 0, tx_prefix_hash := 0, ringct_mask := 0,
           coinbase := true, ringct := false }] [] 101 0 =
      .ok { locked_funds := 0, total_received := 5, total_sent := 0,
            scanned_block_height := 0, start_height := 0, blockchain_height := 101,
            spent_outputs := [] } := by
  refine ⟨by decide, by decide, by decide⟩

/-- Claim C5 as amended: is_locked consults only unlock_time — the
coinbase flag plays no role.  An unlock_time above
CRYPTONOTE_MAX_BLOCK_NUMBER is a unix timestamp, locked iff in the future
of the wall clock; any other unlock_time (the constant itself included) is
a block height, locked iff above the current chain height; and
get_address_info's locked_funds sums exactly the amounts of the outputs so
classified. -/
theorem claim_C5_amended (derived : Option Nat) (address : AccountAddress)
    (lookup : Except ErrorCode (AccountStatus × Account)) (outputs : List Output)
    (spends : List Spend) (chain now : Nat) (info : AddressInfo)
    (hsum : ((outputs.filter (fun o => is_locked o.unlock_time chain now)).map
        (fun o => o.spend_meta.amount)).sum < u64)
    (h : get_address_info_model derived address lookup outputs spends chain now = .ok info) :
    (∀ u c n, is_locked u c n =
        if CRYPTONOTE_MAX_BLOCK_NUMBER < u then decide (n < u) else decide (c < u)) ∧
    info.locked_funds = ((outputs.filter (fun o =>
        if CRYPTONOTE_MAX_BLOCK_NUMBER < o.unlock_time then decide (now < o.unlock_time)
        else decide (chain < o.unlock_time))).map (fun o => o.spend_meta.amount)).sum := by
  obtain ⟨_, h2, _, _⟩ := get_address_info_model_ok_inv h
  refine ⟨fun u c n => rfl, ?_⟩
  rw [h2, Nat.mod_eq_of_lt hsum]
  rfl

/-- Witness for claim C5: an account holding a timestamp-locked output of
40 and an unlocked output of 7 reports locked_funds 40, the sum over the
outputs classified locked by their unlock_time alone. -/
theorem claim_C5_witness :
    ({ locked_funds := 40, total_received := 47, total_sent := 0,
       scanned_block_height := 9, start_height := 2, blockchain_height := 10,
       spent_outputs := [] } : AddressInfo).locked_funds =
      ((([{ link := ⟨1, 77⟩, spend_meta := ⟨⟨1, 0⟩, 40, 3, 0, 9⟩, timestamp := 5,
            unlock_time := 500000001, tx_prefix_hash := 2, ringct_mask := 0,
            coinbase := false, ringct := false },
          { link := ⟨1, 77⟩, spend_meta := ⟨⟨1, 1⟩, 7, 3, 1, 9⟩, timestamp := 5,
            unlock_time := 0, tx_prefix_hash := 2, ringct_mask := 0,
            coinbase := false, ringct := false }] : List Output).filter (fun o =>
            if CRYPTONOTE_MAX_BLOCK_NUMBER < o.unlock_time then
              decide (400000000 < o.unlock_time)
            else decide (10 < o.unlock_time))).map (fun o => o.spend_meta.amount)).sum :=
  (claim_C5_amended (some 7) ⟨5, 7⟩ (.ok (.kActive, ⟨1, ⟨5, 7⟩, 9, 2⟩))
    [{ link := ⟨1, 77⟩, spend_meta := ⟨⟨1, 0⟩, 40, 3, 0, 9⟩, timestamp := 5,
       unlock_time := 500000001, tx_prefix_hash := 2, ringct_mask := 0,
       coinbase := false, ringct := false },
     { link := ⟨1, 77⟩, spend_meta := ⟨⟨1, 1⟩, 7, 3, 1, 9⟩, timestamp := 5,
       unlock_time := 0, tx_prefix_hash := 2, ringct_mask := 0,
       coinbase := false, ringct := false }] [] 10 400000000
    { locked_funds := 40, total_received := 47, total_sent := 0,
      scanned_block_height := 9, start_height := 2, blockchain_height := 10,
      spent_outputs := [] } (by decide) (by decide)).2

/-- Claim C2: a successful get_address_info response reports
total_received equal to the sum of the amounts of the account's stored
outputs, and total_sent equal to the sum over the stored spends of the
amount of the output identified by each spend's source field (output ids
unique per the store invariant; the uint64 sums taken below their wrap
point). -/
theorem claim_C2 (derived : Option Nat) (address : AccountAddress)
    (lookup : Except ErrorCode (AccountStatus × Account)) (outputs : List Output)
    (spends : List Spend) (chain now : Nat) (info : AddressInfo)
    (hnd : (outputs.map (fun o => o.spend_meta.id)).Nodup)
    (hrec : (outputs.map (fun o => o.spend_meta.amount)).sum < u64)
    (hsent : (spends.map (fun s => source_amount outputs s.source)).sum < u64)
    (h : get_address_info_model derived address lookup outputs spends chain now = .ok info) :
    info.total_received = (outputs.map (fun o => o.spend_meta.amount)).sum ∧
    info.total_sent = (spends.map (fun s => source_amount outputs s.source)).sum := by
  obtain ⟨h1, _, hall, h4⟩ := get_address_info_model_ok_inv h
  have hmapeq : spends.map (resolve_amount (info_metas outputs)) =
      spends.map (fun s => source_amount outputs s.source) :=
    List.map_congr_left (fun s hs => resolve_amount_eq_source outputs hnd s (hall s hs))
  constructor
  · rw [h1, Nat.mod_eq_of_lt hrec]
  · rw [h4, hmapeq, Nat.mod_eq_of_lt hsent]

/-- Witness for claim C2 at the spec's seeded scenario: outputs of 1000
and 2500 and one spend consuming the 2500 output give total_received 3500
and total_sent 2500. -/
theorem claim_C2_witness :
    ({ locked_funds := 0, total_received := 3500, total_sent := 2500,
       scanned_block_height := 9, start_height := 2, blockchain_height := 10,
       spent_outputs :=
         [(⟨⟨1, 1⟩, 2500, 3, 1, 9⟩,
           { link := ⟨2, 88⟩, source := ⟨1, 1⟩, image := 4, mixin_count := 3,
             timestamp := 6, unlock_time := 0 })] } : AddressInfo).total_received =
      (([{ link := ⟨1, 77⟩, spend_meta := ⟨⟨1, 0⟩, 1000, 3, 0, 9⟩, timestamp := 5,
           unlock_time := 0, tx_prefix_hash := 2, ringct_mask := 0,
           coinbase := false, ringct := false },
         { link := ⟨1, 77⟩, spend_meta := ⟨⟨1, 1⟩, 2500, 3, 1, 9⟩, timestamp := 5,
           unlock_time := 0, tx_prefix_hash := 2, ringct_mask := 0,
           coinbase := false, ringct := false }] : List Output).map
        (fun o => o.spend_meta.amount)).sum ∧
    ({ locked_funds := 0, total_received := 3500, total_sent := 2500,
       scanned_block_height := 9, start_height := 2, blockchain_height := 10,
       spent_outputs :=
         [(⟨⟨1, 1⟩, 2500, 3, 1, 9⟩,
           { link := ⟨2, 88⟩, source := ⟨1, 1⟩, image := 4, mixin_count := 3,
             timestamp := 6, unlock_time := 0 })] } : AddressInfo).total_sent =
      (([{ link := ⟨2, 88⟩, source := ⟨1, 1⟩, image := 4, mixin_count := 3,
           timestamp := 6, unlock_time := 0 }] : List Spend).map (fun s =>
        source_amount
          [{ link := ⟨1, 77⟩, spend_meta := ⟨⟨1, 0⟩, 1000, 3, 0, 9⟩, timestamp := 5,
             unlock_time := 0, tx_prefix_hash := 2, ringct_mask := 0,
             coinbase := false, ringct := false },
           { link := ⟨1, 77⟩, spend_meta := ⟨⟨1, 1⟩, 2500, 3, 1, 9⟩, timestamp := 5,
             unlock_time := 0, tx_prefix_hash := 2, ringct_mask := 0,
             coinbase := false, ringct := false }] s.source)).sum :=
  claim_C2 (some 7) ⟨5, 7⟩ (.ok (.kActive, ⟨1, ⟨5, 7⟩, 9, 2⟩))
    [{ link := ⟨1, 77⟩, spend_meta := ⟨⟨1, 0⟩, 1000, 3, 0, 9⟩, timestamp := 5,
       unlock_time := 0, tx_prefix_hash := 2, ringct_mask := 0,
       coinbase := false, ringct := false },
     { link := ⟨1, 77⟩, spend_meta := ⟨⟨1, 1⟩, 2500, 3, 1, 9⟩, timestamp := 5,
       unlock_time := 0, tx_prefix_hash := 2, ringct_mask := 0,
       coinbase := false, ringct := false }]
    [{ link := ⟨2, 88⟩, source := ⟨1, 1⟩, image := 4, mixin_count := 3,
       timestamp := 6, unlock_time := 0 }] 10 0
    { locked_funds := 0, total_received := 3500, total_sent := 2500,
      scanned_block_height := 9, start_height := 2, blockchain_height := 10,
      spent_outputs :=
        [(⟨⟨1, 1⟩, 2500, 3, 1, 9⟩,
          { link := ⟨2, 88⟩, source := ⟨1, 1⟩, image := 4, mixin_count := 3,
            timestamp := 6, unlock_time := 0 })] }
    (by decide) (by decide) (by decide) (by decide)

/-- Claim C4: for an authenticated get_unspent_outs request (view key
valid, account visible, fee oracle answering), exactly the outputs with
amount at least the effective dust threshold and mixin count at least the
effective mixin survive and are returned, each with its full key-image
set; and when the surviving total is strictly below the requested amount
the handler responds kNoSuchAccount instead of a normal response. -/
theorem claim_C4 (derived : Option Nat) (address : AccountAddress)
    (st : AccountStatus) (acct : Account) (amount : Nat) (mixin : Option Nat)
    (use_dust : Option Bool) (dust_threshold : Option Nat) (outputs : List Output)
    (images : OutputId → List Nat) (f : Nat)
    (hkey : key_check derived address = true)
    (hvis : is_hidden st = false)
    (hsum : ((surviving_outputs (effective_threshold use_dust dust_threshold)
        (effective_mixin mixin) outputs).map (fun o => o.spend_meta.amount)).sum < u64) :
    (((surviving_outputs (effective_threshold use_dust dust_threshold)
        (effective_mixin mixin) outputs).map (fun o => o.spend_meta.amount)).sum < amount →
      get_unspent_outs_model derived address (.ok (st, acct)) amount mixin use_dust
          dust_threshold outputs images (.ok f) =
        .err (make_error_code .kNoSuchAccount)) ∧
    (amount ≤ ((surviving_outputs (effective_threshold use_dust dust_threshold)
        (effective_mixin mixin) outputs).map (fun o => o.spend_meta.amount)).sum →
      get_unspent_outs_model derived address (.ok (st, acct)) amount mixin use_dust
          dust_threshold outputs images (.ok f) =
        .ok { per_kb_fee := f,
              amount := ((surviving_outputs (effective_threshold use_dust dust_threshold)
                (effective_mixin mixin) outputs).map (fun o => o.spend_meta.amount)).sum,
              outputs := (surviving_outputs (effective_threshold use_dust dust_threshold)
                (effective_mixin mixin) outputs).map
                  (fun o => (o, images o.spend_meta.id)) }) := by
  rw [get_unspent_outs_model_eval derived address st acct amount mixin use_dust
    dust_threshold outputs images f hkey hvis, Nat.mod_eq_of_lt hsum]
  constructor
  · intro hlt
    rw [if_pos hlt]
  · intro hge
    rw [if_neg (Nat.not_lt.mpr hge)]

/-- Witness for claim C4: with threshold 100 and mixin 2, of the outputs
(50, mixin 3), (200, mixin 1) and (300, mixin 5) only the 300 output
survives; a requested amount of 250 is served, and with a single 300
output a requested amount of 301 is refused as kNoSuchAccount. -/
theorem claim_C4_witness :
    get_unspent_outs_model (some 7) ⟨5, 7⟩ (.ok (.kActive, ⟨1, ⟨5, 7⟩, 9, 2⟩)) 250
        (some 2) none (some 100)
        [{ link := ⟨1, 77⟩, spend_meta := ⟨⟨1, 0⟩, 50, 3, 0, 9⟩, timestamp := 5,
           unlock_time := 0, tx_prefix_hash := 2, ringct_mask := 0,
           coinbase := false, ringct := false },
         { link := ⟨1, 78⟩, spend_meta := ⟨⟨1, 1⟩, 200, 1, 0, 9⟩, timestamp := 5,
           unlock_time := 0, tx_prefix_hash := 2, ringct_mask := 0,
           coinbase := false, ringct := false },
         { link := ⟨2, 79⟩, spend_meta := ⟨⟨2, 0⟩, 300, 5, 0, 9⟩, timestamp := 5,
           unlock_time := 0, tx_prefix_hash := 2, ringct_mask := 0,
           coinbase := false, ringct := false }]
        (fun i => [i.high * 10 + i.low]) (.ok 42) =
      .ok { per_kb_fee := 42, amount := 300,
            outputs :=
              [({ link := ⟨2, 79⟩, spend_meta := ⟨⟨2, 0⟩, 300, 5, 0, 9⟩, timestamp := 5,
                  unlock_time := 0, tx_prefix_hash := 2, ringct_mask := 0,
                  coinbase := false, ringct := false }, [20])] } ∧
    get_unspent_outs_model (some 7) ⟨5, 7⟩ (.ok (.kActive, ⟨1, ⟨5, 7⟩, 9, 2⟩)) 301
        (some 2) none (some 100)
        [{ link := ⟨2, 79⟩, spend_meta := ⟨⟨2, 0⟩, 300, 5, 0, 9⟩, timestamp := 5,
           unlock_time := 0, tx_prefix_hash := 2, ringct_mask := 0,
           coinbase := false, ringct := false }]
        (fun i => [i.high * 10 + i.low]) (.ok 42) =
      .err (make_error_code .kNoSuchAccount) :=
  ⟨(claim_C4 (some 7) ⟨5, 7⟩ .kActive ⟨1, ⟨5, 7⟩, 9, 2⟩ 250 (some 2) none (some 100)
      [{ link := ⟨1, 77⟩, spend_meta := ⟨⟨1, 0⟩, 50, 3, 0, 9⟩, timestamp := 5,
         unlock_time := 0, tx_prefix_hash := 2, ringct_mask := 0,
         coinbase := false, ringct := false },
       { link := ⟨1, 78⟩, spend_meta := ⟨⟨1, 1⟩, 200, 1, 0, 9⟩, timestamp := 5,
         unlock_time := 0, tx_prefix_hash := 2, ringct_mask := 0,
         coinbase := false, ringct := false },
       { link := ⟨2, 79⟩, spend_meta := ⟨⟨2, 0⟩, 300, 5, 0, 9⟩, timestamp := 5,
         unlock_time := 0, tx_prefix_hash := 2, ringct_mask := 0,
         coinbase := false, ringct := false }]
      (fun i => [i.high * 10 + i.low]) 42 (by decide) (by decide) (by decide)).2
    (by decide),
   (claim_C4 (some 7) ⟨5, 7⟩ .kActive ⟨1, ⟨5, 7⟩, 9, 2⟩ 301 (some 2) none (some 100)
      [{ link := ⟨2, 79⟩, spend_meta := ⟨⟨2, 0⟩, 300, 5, 0, 9⟩, timestamp := 5,
         unlock_time := 0, tx_prefix_hash := 2, ringct_mask := 0,
         coinbase := false, ringct := false }]
      (fun i => [i.high * 10 + i.low]) 42 (by decide) (by decide) (by decide)).1
    (by decide)⟩

/-- Claim C10: in get_unspent_outs, use_dust present and true forces the
effective threshold to 0 whatever dust_threshold was supplied; an absent
dust_threshold likewise gives 0; an absent mixin gives effective mixin 0;
and consequently a request with use_dust true and no mixin field is served
every output of the account, regardless of the dust_threshold value. -/
theorem claim_C10 (t : Option Nat) (u : Option Bool) :
    effective_threshold (some true) t = 0 ∧
    effective_threshold u none = 0 ∧
    effective_mixin none = 0 ∧
    (∀ (derived : Option Nat) (address : AccountAddress) (st : AccountStatus)
        (acct : Account) (amount : Nat) (outputs : List Output)
        (images : OutputId → List Nat) (f : Nat),
      key_check derived address = true →
      is_hidden st = false →
      (outputs.map (fun o => o.spend_meta.amount)).sum < u64 →
      amount ≤ (outputs.map (fun o => o.spend_meta.amount)).sum →
      get_unspent_outs_model derived address (.ok (st, acct)) amount none (some true) t
          outputs images (.ok f) =
        .ok { per_kb_fee := f,
              amount := (outputs.map (fun o => o.spend_meta.amount)).sum,
              outputs := outputs.map (fun o => (o, images o.spend_meta.id)) }) := by
  have hth : effective_threshold (some true) t = 0 := by
    simp [effective_threshold]
  have hall : ∀ outputs : List Output, surviving_outputs 0 0 outputs = outputs := by
    intro outputs
    rw [surviving_outputs]
    apply List.filter_eq_self.mpr
    intro o _
    simp
  refine ⟨hth, by simp [effective_threshold], rfl, ?_⟩
  intro derived address st acct amount outputs images f hkey hvis hsum hge
  have := get_unspent_outs_model_eval derived address st acct amount none (some true) t
    outputs images f hkey hvis
  rw [hth] at this
  rw [show effective_mixin none = 0 from rfl, hall outputs] at this
  rw [this, Nat.mod_eq_of_lt hsum, if_neg (Nat.not_lt.mpr hge)]

/-- Witness for claim C10: with use_dust true, a dust_threshold of 999999
and no mixin field, an output of amount 3 with mixin count 0 is still
returned. -/
theorem claim_C10_witness :
    effective_threshold (some true) (some 999999) = 0 ∧
    get_unspent_outs_model (some 7) ⟨5, 7⟩ (.ok (.kActive, ⟨1, ⟨5, 7⟩, 9, 2⟩)) 0 none
        (some true) (some 999999)
        [{ link := ⟨1, 77⟩, spend_meta := ⟨⟨1, 0⟩, 3, 0, 0, 9⟩, timestamp := 5,
           unlock_time := 0, tx_prefix_hash := 2, ringct_mask := 0,
           coinbase := false, ringct := false }]
        (fun i => [i.high * 10 + i.low]) (.ok 42) =
      .ok { per_kb_fee := 42, amount := 3,
            outputs :=
              [({ link := ⟨1, 77⟩, spend_meta := ⟨⟨1, 0⟩, 3, 0, 0, 9⟩, timestamp := 5,
                  unlock_time := 0, tx_prefix_hash := 2, ringct_mask := 0,
                  coinbase := false, ringct := false }, [10])] } :=
  ⟨(claim_C10 (some 999999) none).1,
   (claim_C10 (some 999999) none).2.2.2 (some 7) ⟨5, 7⟩ .kActive ⟨1, ⟨5, 7⟩, 9, 2⟩ 0
     [{ link := ⟨1, 77⟩, spend_meta := ⟨⟨1, 0⟩, 3, 0, 0, 9⟩, timestamp := 5,
        unlock_time := 0, tx_prefix_hash := 2, ringct_mask := 0,
        coinbase := false, ringct := false }]
     (fun i => [i.high * 10 + i.low]) 42 (by decide) (by decide) (by decide) (by decide)⟩

/-- Claim C3 names the intended invariant, but get_address_txs violates
it.  Failing input: one transaction carrying two outputs, ids (1,1) of
amount 100 and (1,2) of amount 200, and a later spend whose source is
(1,2) — so every stored spend's source equals the id of a stored output.
The merge loop collapses same-transaction outputs into one entry and
inserts only that entry's meta (carrying the first output's id) into the
lookup vector, so resolving source (1,2) misses and the handler throws
the fatal "no receive for spend" logic error (surfacing as HTTP 500)
despite the receive being present.  get_address_info, which inserts every
output's own meta, serves the same account normally. -/
theorem claim_C3_code_bug :
    ([{ link := ⟨2, 88⟩, source := ⟨1, 2⟩, image := 4, mixin_count := 3,
        timestamp := 6, unlock_time := 0 }] : List Spend).all (fun s =>
      ([{ link := ⟨1, 77⟩, spend_meta := ⟨⟨1, 1⟩, 100, 3, 0, 9⟩, timestamp := 5,
          unlock_time := 0, tx_prefix_hash := 2, ringct_mask := 0,
          coinbase := false, ringct := false },
        { link := ⟨1, 77⟩, spend_meta := ⟨⟨1, 2⟩, 200, 3, 1, 9⟩, timestamp := 5,
          unlock_time := 0, tx_prefix_hash := 2, ringct_mask := 0,
          coinbase := false, ringct := false }] : List Output).any (fun o =>
        o.spend_meta.id == s.source)) = true ∧
    get_address_txs_model (some 7) ⟨5, 7⟩ (.ok (.kActive, ⟨1, ⟨5, 7⟩, 90, 3⟩))
        [{ link := ⟨1, 77⟩, spend_meta := ⟨⟨1, 1⟩, 100, 3, 0, 9⟩, timestamp := 5,
           unlock_time := 0, tx_prefix_hash := 2, ringct_mask := 0,
           coinbase := false, ringct := false },
         { link := ⟨1, 77⟩, spend_meta := ⟨⟨1, 2⟩, 200, 3, 1, 9⟩, timestamp := 5,
           unlock_time := 0, tx_prefix_hash := 2, ringct_mask := 0,
           coinbase := false, ringct := false }]
        [{ link := ⟨2, 88⟩, source := ⟨1, 2⟩, image := 4, mixin_count := 3,
           timestamp := 6, unlock_time := 0 }] =
      .thrown "Serious database error, no receive for spend" ∧
    get_address_info_model (some 7) ⟨5, 7⟩ (.ok (.kActive, ⟨1, ⟨5, 7⟩, 90, 3⟩))
        [{ link := ⟨1, 77⟩, spend_meta := ⟨⟨1, 1⟩, 100, 3, 0, 9⟩, timestamp := 5,
           unlock_time := 0, tx_prefix_hash := 2, ringct_mask := 0,
           coinbase := false, ringct := false },
         { link := ⟨1, 77⟩, spend_meta := ⟨⟨1, 2⟩, 200, 3, 1, 9⟩, timestamp := 5,
           unlock_time := 0, tx_prefix_hash := 2, ringct_mask := 0,
           coinbase := false, ringct := false }]
        [{ link := ⟨2, 88⟩, source := ⟨1, 2⟩, image := 4, mixin_count := 3,
           timestamp := 6, unlock_time := 0 }] 10 0 =
      .ok { locked_funds := 0, total_received := 300, total_sent := 200,
            scanned_block_height := 90, start_height := 3, blockchain_height := 10,
            spent_outputs :=
              [(⟨⟨1, 2⟩, 200, 3, 1, 9⟩,
                { link := ⟨2, 88⟩, source := ⟨1, 2⟩, image := 4, mixin_count := 3,
                  timestamp := 6, unlock_time := 0 })] } := by
  refine ⟨by decide, ?_, by decide⟩
  simp [get_address_txs_model, get_account_model, key_check, is_hidden, txs_merge,
    txs_sort_bad, txs_output_step, txs_spend_step, TxEntry.ofOutput, insert_meta,
    insert_meta_lb, lookup_source, find_metadata, OutputId.ltb, TransactionLink.ltb,
    TransactionLink.leb, u64]

end Lws
